import Mathlib

/-!
# Verification of the `File` script-loading state machine (PHP-CPP, zend/file.cpp)

Shallow embedding of `Php::File` from `src/zend/file.cpp`.  The class owns an
optional canonical path (`_path`, produced by `zend_resolve_path` at
construction) and an optional memoized compiled unit (`_opcodes`).  Its
operations are `compile`, `exists`, `valid`, `execute` and `once`.

External collaborators (the Zend engine) are modelled by an environment `Env`
of oracles:
* `openOk`       — whether `zend_stream_open` succeeds on a path;
* `backendValid` — the validity flag of the program produced by
                   `zend_compile_file` for a path (the compilation backend
                   produces an invalid program rather than faulting);
* `statOk`       — whether `stat` returns 0 for a path;
* `execRun`      — the execution backend (`Opcodes::execute`); a runtime
                   fault is modelled as `Except.error ()` and propagates.

Each operation returns its C++ return value, the updated `File` state and a
trace of the external calls it performed, so that claims of the form
"without re-invoking the filesystem / backend" are statable.  The
included-files registry `EG(included_files)` is threaded explicitly as a
list of paths with set semantics (`zend_hash_exists` / membership,
`zend_hash_add_empty_element` / insertion).

The C++ result type `Value` with its `nullptr` no-result sentinel is
modelled as `Option Int` with sentinel `none`; the overall result of
`execute`/`once` is `Except Unit (Option Int)` so that a runtime fault of
the execution backend can propagate through this layer.
-/

namespace PhpCpp

/-- A compiled unit: the `Opcodes` wrapper around the program produced by
`zend_compile_file`, identified here by the path it was compiled from,
together with its fixed validity flag (`Opcodes::valid`). -/
structure Opcodes where
  src : String
  valid : Bool
deriving DecidableEq, Repr

/-- One external call performed by a `File` operation.  `openCall` records
whether the `zend_stream_open` attempt succeeded; `closeCall` is
`zend_destroy_file_handle`; `compileCall` is `zend_compile_file`;
`statCall` is `stat`; `execCall` is `Opcodes::execute`. -/
inductive Event where
  | openCall (path : String) (ok : Bool)
  | closeCall (path : String)
  | compileCall (path : String)
  | statCall (path : String)
  | execCall (ops : Opcodes)
deriving DecidableEq, Repr

/-- The external collaborators (Zend engine and filesystem), as oracles.
Operations take the environment per call, so the outside world may change
between calls (e.g. a file becoming readable). -/
structure Env where
  openOk : String → Bool
  backendValid : String → Bool
  statOk : String → Bool
  execRun : Opcodes → Except Unit (Option Int)

/-- The state of a `Php::File` object: `path` is the member `_path`
(`none` when `zend_resolve_path` failed), `opcodes` is the member
`_opcodes` (the memo slot, `none` until a compilation attempt reaches the
backend). -/
structure File where
  path : Option String
  opcodes : Option Opcodes
deriving DecidableEq, Repr

/-- The constructor `File::File(name, size)`: resolves the name through the
include-path resolver (here an oracle `resolve`) and stores the canonical
path; the memo slot starts empty.  No compilation happens here. -/
def File.construct (resolve : String → Option String) (name : String) : File :=
  { path := resolve name, opcodes := none }

/-- `File::compile()`.  Returns `false` if the path is unresolved; returns
the memoized validity if `_opcodes` is already populated; otherwise opens
the file (returning `false` on open failure, leaving the slot empty),
invokes `zend_compile_file`, stores the wrapped result in the memo slot
regardless of its validity, destroys the file handle, and returns the
stored unit's validity. -/
def File.compile (env : Env) (f : File) : Bool × File × List Event :=
  match f.path with
  | none => (false, f, [])
  | some p =>
    match f.opcodes with
    | some ops => (ops.valid, f, [])
    | none =>
      if env.openOk p then
        let ops : Opcodes := { src := p, valid := env.backendValid p }
        (ops.valid, { f with opcodes := some ops },
          [Event.openCall p true, Event.compileCall p, Event.closeCall p])
      else
        (false, f, [Event.openCall p false])

/-- Lean requires a distinct name for the `exists` member since `exists`
is reserved; this is `File::exists()`.  Returns `false` on an unresolved
path; returns `true` without touching the filesystem when a valid compiled
unit is memoized; otherwise delegates to `stat`.  Never mutates the
object. -/
def File.existsQ (env : Env) (f : File) : Bool × File × List Event :=
  match f.path with
  | none => (false, f, [])
  | some p =>
    match f.opcodes with
    | some ops =>
      if ops.valid then (true, f, [])
      else (env.statOk p, f, [Event.statCall p])
    | none => (env.statOk p, f, [Event.statCall p])

/-- `File::valid()`: simply delegates to `compile()`. -/
def File.valid (env : Env) (f : File) : Bool × File × List Event :=
  f.compile env

/-- `File::execute()`.  If the compiled unit is already memoized, executes
it directly (no validity re-check).  Otherwise calls `compile()`; on
`false` returns the `nullptr` sentinel; otherwise executes the
now-memoized unit.  (When `compile` returns `true` the slot is provably
populated, so the final `none` branch is unreachable.) -/
def File.execute (env : Env) (f : File) : Except Unit (Option Int) × File × List Event :=
  match f.opcodes with
  | some ops => (env.execRun ops, f, [Event.execCall ops])
  | none =>
    let r := f.compile env
    if r.1 then
      match r.2.1.opcodes with
      | some ops => (env.execRun ops, r.2.1, r.2.2 ++ [Event.execCall ops])
      | none => (Except.ok none, r.2.1, r.2.2)
    else
      (Except.ok none, r.2.1, r.2.2)

/-- `File::once()`.  The registry `reg` is `EG(included_files)`.  Returns
the sentinel on an unresolved path; returns the sentinel when the
canonical path is already registered; otherwise inserts the path into the
registry first and then delegates to `execute()`. -/
def File.once (env : Env) (reg : List String) (f : File) :
    Except Unit (Option Int) × File × List String × List Event :=
  match f.path with
  | none => (Except.ok none, f, reg, [])
  | some p =>
    if p ∈ reg then (Except.ok none, f, reg, [])
    else
      let reg1 := p :: reg
      let r := f.execute env
      (r.1, r.2.1, reg1, r.2.2)

/-- Is the event an invocation of the execution backend? -/
def Event.isExec : Event → Bool
  | Event.execCall _ => true
  | _ => false

/-- Is the event a successful `zend_stream_open`? -/
def Event.isOpenOk : Event → Bool
  | Event.openCall _ ok => ok
  | _ => false

/-- Is the event a `zend_destroy_file_handle`? -/
def Event.isClose : Event → Bool
  | Event.closeCall _ => true
  | _ => false

/-- Is the event any filesystem access (`zend_stream_open` or `stat`)? -/
def Event.isFs : Event → Bool
  | Event.openCall _ _ => true
  | Event.statCall _ => true
  | _ => false

/-- Is the event an invocation of the compilation backend? -/
def Event.isCompile : Event → Bool
  | Event.compileCall _ => true
  | _ => false

/-- Number of execution-backend invocations in a trace. -/
def execCount (ev : List Event) : Nat := ev.countP (fun e => e.isExec)

/-- A concrete environment for witnesses: every path opens, compiles to a
valid program, is present on disk, and executes to the value `7`. -/
def envW : Env :=
  { openOk := fun _ => true
    backendValid := fun _ => true
    statOk := fun _ => true
    execRun := fun _ => Except.ok (some 7) }

/-- A concrete environment whose execution backend signals a runtime
fault. -/
def envFault : Env :=
  { openOk := fun _ => true
    backendValid := fun _ => true
    statOk := fun _ => true
    execRun := fun _ => Except.error () }

/-- A concrete environment in which opening any file fails. -/
def envNoOpen : Env :=
  { openOk := fun _ => false
    backendValid := fun _ => true
    statOk := fun _ => false
    execRun := fun _ => Except.ok (some 7) }

/-- A concrete environment in which files open but the compilation
backend produces an invalid program. -/
def envBadCompile : Env :=
  { openOk := fun _ => true
    backendValid := fun _ => false
    statOk := fun _ => true
    execRun := fun _ => Except.ok (some 7) }

/-! ## Helper lemmas -/

/-- `compile()` never calls the execution backend. -/
theorem File.compile_no_exec (env : Env) (f : File) :
    execCount (f.compile env).2.2 = 0 := by
  rcases f with ⟨path, ops⟩
  rcases path with _ | p <;> rcases ops with _ | o <;>
    simp [File.compile, execCount]
  by_cases h : env.openOk p <;> simp [h, Event.isExec]

/-- `execute()` calls the execution backend at most once. -/
theorem File.execute_exec_le_one (env : Env) (f : File) :
    execCount (f.execute env).2.2 ≤ 1 := by
  rcases f with ⟨path, ops⟩
  rcases ops with _ | o
  · rcases path with _ | p
    · simp [File.execute, File.compile, execCount]
    · by_cases h : env.openOk p
      · by_cases hv : env.backendValid p <;>
          simp [File.execute, File.compile, h, hv, execCount, Event.isExec]
      · simp [File.execute, File.compile, h, execCount, Event.isExec]
  · simp [File.execute, execCount, Event.isExec]

/-- When the memo slot is empty and `compile()` reports success, the slot
is populated with the unit compiled from the canonical path. -/
theorem File.compile_true_populates (env : Env) (f : File)
    (hm : f.opcodes = none) (hc : (f.compile env).1 = true) :
    ∃ p, f.path = some p ∧ env.openOk p = true ∧ env.backendValid p = true ∧
      (f.compile env).2.1 =
        { path := f.path, opcodes := some { src := p, valid := true } } := by
  rcases f with ⟨path, ops⟩
  cases hm
  rcases path with _ | p
  · simp [File.compile] at hc
  · by_cases h : env.openOk p
    · have hv : env.backendValid p = true := by simpa [File.compile, h] using hc
      exact ⟨p, rfl, h, hv, by simp [File.compile, h, hv]⟩
    · simp [File.compile, h] at hc

/-- A step of `once()` on a fresh path: the registry gains the path and
the rest is `execute()`. -/
theorem File.once_not_mem (env : Env) (reg : List String) (f : File)
    (p : String) (h1 : f.path = some p) (h2 : p ∉ reg) :
    f.once env reg =
      ((f.execute env).1, (f.execute env).2.1, p :: reg, (f.execute env).2.2) := by
  rcases f with ⟨path, ops⟩
  cases h1
  simp [File.once, h2]

/-- A step of `once()` on an already-registered path: the sentinel, no
state change, no external calls. -/
theorem File.once_mem (env : Env) (reg : List String) (f : File)
    (p : String) (h1 : f.path = some p) (h2 : p ∈ reg) :
    f.once env reg = (Except.ok none, f, reg, []) := by
  rcases f with ⟨path, ops⟩
  cases h1
  simp [File.once, h2]

/-! ## Claim theorems -/

/-- C1.  Once-only guarantee of `once()`: starting from a fresh registry,
running `once()` on two `File` instances sharing the same canonical path
(in either order, under possibly different environments) invokes the
execution backend at most once in total, and the second call returns the
`nullptr` sentinel with no external calls; moreover, whenever the
canonical path is already present in the registry, `once()` returns the
sentinel without executing anything. -/
theorem once_once_only (env1 env2 : Env) (f1 f2 : File) (p : String)
    (h1 : f1.path = some p) (h2 : f2.path = some p) :
    execCount (f1.once env1 []).2.2.2 +
      execCount (f2.once env2 (f1.once env1 []).2.2.1).2.2.2 ≤ 1 ∧
    (f2.once env2 (f1.once env1 []).2.2.1).1 = Except.ok none ∧
    (f2.once env2 (f1.once env1 []).2.2.1).2.2.2 = [] ∧
    (∀ (env : Env) (reg : List String) (g : File) (q : String),
      g.path = some q → q ∈ reg →
      g.once env reg = (Except.ok none, g, reg, [])) := by
  have hstep1 := File.once_not_mem env1 [] f1 p h1 (by simp)
  have hreg1 : (f1.once env1 []).2.2.1 = [p] := by rw [hstep1]
  have hstep2 := File.once_mem env2 [p] f2 p h2 (by simp)
  rw [hreg1, hstep2]
  refine ⟨?_, rfl, rfl, ?_⟩
  · have := File.execute_exec_le_one env1 f1
    simp [hstep1, execCount, Event.isExec]
    simpa [execCount] using this
  · intro env reg g q hq hmem
    exact File.once_mem env reg g q hq hmem

/-- C1 witness: instantiated at two concrete files resolving to the same
path; the first `once()` executes once, the second returns the sentinel. -/
theorem once_once_only_witness :
    execCount ((File.mk (some "/s/a.inc") none).once envW []).2.2.2 +
      execCount ((File.mk (some "/s/a.inc") none).once envW
        (((File.mk (some "/s/a.inc") none).once envW []).2.2.1)).2.2.2 ≤ 1 ∧
    ((File.mk (some "/s/a.inc") none).once envW
        (((File.mk (some "/s/a.inc") none).once envW []).2.2.1)).1 =
      Except.ok none :=
  ⟨(once_once_only envW envW (File.mk (some "/s/a.inc") none)
      (File.mk (some "/s/a.inc") none) "/s/a.inc" rfl rfl).1,
   (once_once_only envW envW (File.mk (some "/s/a.inc") none)
      (File.mk (some "/s/a.inc") none) "/s/a.inc" rfl rfl).2.1⟩

/-- C2.  Registry-before-execution ordering in `once()`: on a resolved
path not yet registered, the resulting registry is the old one with the
path inserted, *whatever* `execute()` does — even when the execution
backend faults, the result and state are exactly those of `execute()`
while the path is registered; and a recursive `once()` load of the same
path against the updated registry is skipped with no external calls. -/
theorem once_registers_before_execute (env : Env) (reg : List String)
    (f : File) (p : String) (h1 : f.path = some p) (h2 : p ∉ reg) :
    (f.once env reg).2.2.1 = p :: reg ∧
    p ∈ (f.once env reg).2.2.1 ∧
    (f.once env reg).1 = (f.execute env).1 ∧
    (f.once env reg).2.1 = (f.execute env).2.1 ∧
    (∀ g : File, g.path = some p →
      g.once env (p :: reg) = (Except.ok none, g, p :: reg, [])) := by
  have hstep := File.once_not_mem env reg f p h1 h2
  rw [hstep]
  exact ⟨rfl, by simp, rfl, rfl, fun g hg =>
    File.once_mem env (p :: reg) g p hg (by simp)⟩

/-- C2 witness: with an execution backend that faults, `once()` still
leaves the canonical path in the registry. -/
theorem once_registers_before_execute_witness :
    ((File.mk (some "/s/a.inc") none).once envFault []).2.2.1 = ["/s/a.inc"] ∧
    ((File.mk (some "/s/a.inc") none).once envFault []).1 = Except.error () :=
  ⟨(once_registers_before_execute envFault [] (File.mk (some "/s/a.inc") none)
      "/s/a.inc" rfl (by simp)).1,
   by
    rw [(once_registers_before_execute envFault [] (File.mk (some "/s/a.inc") none)
      "/s/a.inc" rfl (by simp)).2.2.1]
    rfl⟩

/-- C3 counterexample: the claim "after a first `compile()` returns a
fixed validity V, every subsequent `compile()` returns V without
re-invoking the filesystem" fails at a concrete input: for a resolved
file whose first `compile()` fails at the open step (returning `false`),
a second `compile()` call re-invokes the filesystem (one open attempt in
its trace), and under an environment where the file has become readable
it even returns `true` ≠ `false`. -/
theorem compile_idem_counterexample :
    ((File.mk (some "/s/a.inc") none).compile envNoOpen).1 = false ∧
    (((File.mk (some "/s/a.inc") none).compile envNoOpen).2.1.compile
        envNoOpen).2.2.countP (fun e => e.isFs) = 1 ∧
    (((File.mk (some "/s/a.inc") none).compile envNoOpen).2.1.compile
        envW).1 = true := by
  decide

/-- C3 (amended).  `compile()` idempotence holds for every first call
that does not fail at the open step: if the first call left the memo slot
populated (i.e. it reached the compilation backend), or the path is
unresolved, then every subsequent `compile()` call — under any later
environment — returns the same validity with no external calls and no
state change. -/
theorem compile_idempotent (env env' : Env) (f : File)
    (h : (f.compile env).2.1.opcodes ≠ none ∨ f.path = none) :
    (f.compile env).2.1.compile env' =
      ((f.compile env).1, (f.compile env).2.1, []) := by
  rcases f with ⟨path, ops⟩
  rcases path with _ | p
  · simp [File.compile]
  · rcases ops with _ | o
    · by_cases ho : env.openOk p
      · simp [File.compile, ho]
      · rcases h with h | h
        · simp [File.compile, ho] at h
        · simp at h
    · simp [File.compile]

/-- C3 witness for the amended theorem, at a concrete file and
environment whose first `compile()` reaches the backend. -/
theorem compile_idempotent_witness :
    ((File.mk (some "/s/a.inc") none).compile envW).2.1.compile envW =
      (((File.mk (some "/s/a.inc") none).compile envW).1,
       ((File.mk (some "/s/a.inc") none).compile envW).2.1, []) :=
  compile_idempotent envW envW (File.mk (some "/s/a.inc") none)
    (Or.inl (by decide))

/-- C4.  Terminal memoization regardless of validity: when `compile()`
reaches the backend (resolved path, empty slot, successful open), the
backend's result is stored in the memo slot whatever its validity flag;
and once the slot is populated with some unit, no later `compile()`,
`valid()` or `execute()` call ever replaces it. -/
theorem compile_memoizes_terminally (env : Env) (f : File) (p : String)
    (h1 : f.path = some p) (h2 : f.opcodes = none) (h3 : env.openOk p = true) :
    (f.compile env).2.1.opcodes = some { src := p, valid := env.backendValid p } ∧
    (∀ (env' : Env) (g : File) (ops : Opcodes), g.opcodes = some ops →
      (g.compile env').2.1.opcodes = some ops ∧
      (g.valid env').2.1.opcodes = some ops ∧
      (g.execute env').2.1.opcodes = some ops) := by
  rcases f with ⟨path, ops⟩
  cases h2
  cases h1
  refine ⟨by simp [File.compile, h3], ?_⟩
  intro env' g ops hg
  rcases g with ⟨gpath, gops⟩
  cases hg
  rcases gpath with _ | q <;>
    simp [File.compile, File.valid, File.execute]

/-- C4 witness: under a backend that reports the program invalid, the
invalid unit is still memoized, and the slot survives a later call. -/
theorem compile_memoizes_terminally_witness :
    ((File.mk (some "/s/a.inc") none).compile envBadCompile).2.1.opcodes =
      some { src := "/s/a.inc", valid := false } ∧
    ((File.mk (some "/s/a.inc") (some { src := "/s/a.inc", valid := false })).compile
        envW).2.1.opcodes = some { src := "/s/a.inc", valid := false } :=
  ⟨by
    have h := (compile_memoizes_terminally envBadCompile
      (File.mk (some "/s/a.inc") none) "/s/a.inc" rfl rfl rfl).1
    simpa [envBadCompile] using h,
   ((compile_memoizes_terminally envBadCompile
      (File.mk (some "/s/a.inc") none) "/s/a.inc" rfl rfl rfl).2 envW
      (File.mk (some "/s/a.inc") (some { src := "/s/a.inc", valid := false }))
      { src := "/s/a.inc", valid := false } rfl).1⟩

/-- C5.  `execute()` semantics: with a memoized unit, it invokes the
execution backend on that unit directly (no validity re-check — the
equation holds whatever `ops.valid` is) and returns its result; with no
memoized unit it calls `compile()`, returns the sentinel on `false`, and
otherwise executes the now-memoized unit and returns its result. -/
theorem execute_semantics (env : Env) (f : File) :
    (∀ ops, f.opcodes = some ops →
      f.execute env = (env.execRun ops, f, [Event.execCall ops])) ∧
    (f.opcodes = none → (f.compile env).1 = false →
      f.execute env = (Except.ok none, (f.compile env).2.1, (f.compile env).2.2)) ∧
    (f.opcodes = none → (f.compile env).1 = true →
      ∃ ops, (f.compile env).2.1.opcodes = some ops ∧
        f.execute env = (env.execRun ops, (f.compile env).2.1,
          (f.compile env).2.2 ++ [Event.execCall ops])) := by
  refine ⟨?_, ?_, ?_⟩
  · intro ops h
    rcases f with ⟨path, fops⟩
    cases h
    simp [File.execute]
  · intro hnone hfalse
    rcases f with ⟨path, fops⟩
    cases hnone
    simp [File.execute, hfalse]
  · intro hnone htrue
    obtain ⟨p, hp, ho, hv, hstate⟩ := File.compile_true_populates env f hnone htrue
    refine ⟨{ src := p, valid := true }, by simp [hstate], ?_⟩
    rcases f with ⟨path, fops⟩
    cases hnone
    simp only [File.execute, htrue, hstate]
    simp [hstate]

/-- C5 witness at a concrete file with a memoized (invalid) unit: the
execution backend is invoked directly. -/
theorem execute_semantics_witness :
    (File.mk (some "/s/a.inc") (some { src := "/s/a.inc", valid := false })).execute
        envW =
      (envW.execRun { src := "/s/a.inc", valid := false },
       File.mk (some "/s/a.inc") (some { src := "/s/a.inc", valid := false }),
       [Event.execCall { src := "/s/a.inc", valid := false }]) :=
  (execute_semantics envW
    (File.mk (some "/s/a.inc") (some { src := "/s/a.inc", valid := false }))).1
    { src := "/s/a.inc", valid := false } rfl

/-- C6.  Open failure is retryable: with a resolved path, an empty memo
slot and a failing open, `compile()` returns `false` with the state
unchanged (slot still empty); a later call re-attempts the open (exactly
one filesystem call in its trace), and succeeds — returning the backend's
validity — if the file has become readable. -/
theorem compile_open_failure_retryable (env env' : Env) (f : File) (p : String)
    (h1 : f.path = some p) (h2 : f.opcodes = none) (h3 : env.openOk p = false) :
    f.compile env = (false, f, [Event.openCall p false]) ∧
    ((f.compile env).2.1.compile env').2.2.countP (fun e => e.isFs) = 1 ∧
    (env'.openOk p = true →
      ((f.compile env).2.1.compile env').1 = env'.backendValid p) := by
  rcases f with ⟨path, ops⟩
  cases h2
  cases h1
  refine ⟨by simp [File.compile, h3], ?_, ?_⟩
  · by_cases ho : env'.openOk p <;>
      simp [File.compile, h3, ho, Event.isFs]
  · intro ho
    simp [File.compile, h3, ho]

/-- C6 witness: open fails, then the file becomes readable and the retry
compiles successfully. -/
theorem compile_open_failure_retryable_witness :
    (File.mk (some "/s/a.inc") none).compile envNoOpen =
      (false, File.mk (some "/s/a.inc") none,
        [Event.openCall "/s/a.inc" false]) ∧
    (((File.mk (some "/s/a.inc") none).compile envNoOpen).2.1.compile
        envW).1 = envW.backendValid "/s/a.inc" :=
  ⟨(compile_open_failure_retryable envNoOpen envW
      (File.mk (some "/s/a.inc") none) "/s/a.inc" rfl rfl rfl).1,
   (compile_open_failure_retryable envNoOpen envW
      (File.mk (some "/s/a.inc") none) "/s/a.inc" rfl rfl rfl).2.2 rfl⟩

/-- C7.  `exists()` behaviour: it never mutates the object and never
calls the compilation or execution backend; an unresolved path yields
`false` with no filesystem access; a memoized valid unit yields `true`
with no filesystem access (for every environment, including one where the
file no longer stats); otherwise the result is the filesystem presence
check on the canonical path. -/
theorem exists_behaviour (env : Env) (f : File) :
    (f.existsQ env).2.1 = f ∧
    (f.existsQ env).2.2.countP (fun e => e.isCompile) = 0 ∧
    execCount (f.existsQ env).2.2 = 0 ∧
    (f.path = none → f.existsQ env = (false, f, [])) ∧
    (∀ p ops, f.path = some p → f.opcodes = some ops → ops.valid = true →
      f.existsQ env = (true, f, [])) ∧
    (∀ p, f.path = some p → (∀ ops, f.opcodes = some ops → ops.valid = false) →
      f.existsQ env = (env.statOk p, f, [Event.statCall p])) := by
  rcases f with ⟨path, ops⟩
  rcases path with _ | p
  · rcases ops with _ | o <;>
      simp [File.existsQ, execCount, Event.isCompile, Event.isExec]
  · rcases ops with _ | o
    · simp [File.existsQ, execCount, Event.isCompile, Event.isExec]
    · by_cases hv : o.valid <;>
        simp [File.existsQ, hv, execCount, Event.isCompile, Event.isExec]

/-- C7 witness: the fast path at a concrete file with a memoized valid
unit, under an environment where the backing file no longer exists on
disk (`stat` fails), still returns `true` with no filesystem access. -/
theorem exists_behaviour_witness :
    (File.mk (some "/s/a.inc") (some { src := "/s/a.inc", valid := true })).existsQ
        envNoOpen = (true,
      File.mk (some "/s/a.inc") (some { src := "/s/a.inc", valid := true }), []) :=
  (exists_behaviour envNoOpen
    (File.mk (some "/s/a.inc") (some { src := "/s/a.inc", valid := true }))).2.2.2.2.1
    "/s/a.inc" { src := "/s/a.inc", valid := true } rfl rfl rfl

/-- C8.  Uniform failure on unresolved names: a `File` whose resolution
failed (empty path, and hence — as the final conjunct shows for the
constructor — an empty memo slot) gives `exists() = false`,
`valid() = false`, `execute() = sentinel` and `once() = sentinel`, with no
external calls, no state change and no registry modification. -/
theorem unresolved_uniform_failure (env : Env) (reg : List String) (f : File)
    (h1 : f.path = none) (h2 : f.opcodes = none) :
    f.existsQ env = (false, f, []) ∧
    f.valid env = (false, f, []) ∧
    f.execute env = (Except.ok none, f, []) ∧
    f.once env reg = (Except.ok none, f, reg, []) ∧
    (∀ (resolve : String → Option String) (name : String),
      resolve name = none →
      File.construct resolve name = { path := none, opcodes := none }) := by
  rcases f with ⟨path, ops⟩
  cases h1
  cases h2
  refine ⟨?_, ?_, ?_, ?_, ?_⟩
  · simp [File.existsQ]
  · simp [File.valid, File.compile]
  · simp [File.execute, File.compile]
  · simp [File.once]
  · intro resolve name h
    simp [File.construct, h]

/-- C8 witness: a concrete unresolved file behaves uniformly. -/
theorem unresolved_uniform_failure_witness :
    (File.mk none none).existsQ envW = (false, File.mk none none, []) ∧
    (File.mk none none).once envW ["/s/a.inc"] =
      (Except.ok none, File.mk none none, ["/s/a.inc"], []) :=
  ⟨(unresolved_uniform_failure envW ["/s/a.inc"] (File.mk none none) rfl rfl).1,
   (unresolved_uniform_failure envW ["/s/a.inc"] (File.mk none none) rfl
      rfl).2.2.2.1⟩

/-- C9.  Scoped file-handle release in `compile()`: whenever the open
succeeds, the trace is exactly open–backend–close, so the handle is
destroyed after the backend invocation and before return, for both the
valid and the invalid backend outcome (no hypothesis on validity); and in
every `compile()` call whatsoever, the number of successful opens equals
the number of handle releases, so no handle is retained after return. -/
theorem compile_releases_handle (env : Env) (f : File) (p : String)
    (h1 : f.path = some p) (h2 : f.opcodes = none) (h3 : env.openOk p = true) :
    (f.compile env).2.2 =
      [Event.openCall p true, Event.compileCall p, Event.closeCall p] ∧
    (∀ (env0 : Env) (g : File),
      (g.compile env0).2.2.countP (fun e => e.isOpenOk) =
        (g.compile env0).2.2.countP (fun e => e.isClose)) := by
  rcases f with ⟨path, ops⟩
  cases h2
  cases h1
  refine ⟨by simp [File.compile, h3], ?_⟩
  intro env0 g
  rcases g with ⟨gpath, gops⟩
  rcases gpath with _ | q
  · simp [File.compile]
  · rcases gops with _ | o
    · by_cases ho : env0.openOk q <;>
        simp [File.compile, ho, Event.isOpenOk, Event.isClose]
    · simp [File.compile]

/-- C9 witness: at a concrete file under a failing backend, the handle is
still opened, used and closed in order. -/
theorem compile_releases_handle_witness :
    ((File.mk (some "/s/a.inc") none).compile envBadCompile).2.2 =
      [Event.openCall "/s/a.inc" true, Event.compileCall "/s/a.inc",
       Event.closeCall "/s/a.inc"] :=
  (compile_releases_handle envBadCompile (File.mk (some "/s/a.inc") none)
    "/s/a.inc" rfl rfl rfl).1

/-- C10.  Inconsistent `execute()` results after a memoized compile
failure: when an `execute()` call triggers a compilation that memoizes an
invalid unit, that call returns the sentinel without invoking the
execution backend; but every subsequent `execute()` call on the resulting
state finds the memoized invalid unit and invokes the execution backend
on it, returning the backend's result instead of the sentinel. -/
theorem execute_inconsistent_after_memoized_failure (env env' : Env)
    (f : File) (p : String)
    (h1 : f.path = some p) (h2 : f.opcodes = none)
    (h3 : env.openOk p = true) (h4 : env.backendValid p = false) :
    (f.execute env).1 = Except.ok none ∧
    execCount (f.execute env).2.2 = 0 ∧
    (f.execute env).2.1.opcodes = some { src := p, valid := false } ∧
    ((f.execute env).2.1.execute env').1 =
      env'.execRun { src := p, valid := false } ∧
    execCount ((f.execute env).2.1.execute env').2.2 = 1 := by
  rcases f with ⟨path, ops⟩
  cases h2
  cases h1
  simp [File.execute, File.compile, h3, h4, execCount, Event.isExec,
    Event.isOpenOk, Event.isClose, Event.isCompile, Event.isFs]

/-- C10 witness: concrete instance of the inconsistency, with the later
call returning the backend's value `some 7` rather than the sentinel. -/
theorem execute_inconsistent_witness :
    ((File.mk (some "/s/a.inc") none).execute envBadCompile).1 =
      Except.ok none ∧
    (((File.mk (some "/s/a.inc") none).execute envBadCompile).2.1.execute
        envBadCompile).1 = Except.ok (some 7) :=
  ⟨(execute_inconsistent_after_memoized_failure envBadCompile envBadCompile
      (File.mk (some "/s/a.inc") none) "/s/a.inc" rfl rfl rfl rfl).1,
   by
    rw [(execute_inconsistent_after_memoized_failure envBadCompile envBadCompile
      (File.mk (some "/s/a.inc") none) "/s/a.inc" rfl rfl rfl rfl).2.2.2.1]
    rfl⟩

end PhpCpp
